import Mathlib

/-!
Verification development for the lunar image optimizer
(`src/optimize-images.py`).

The script converts raster images to WebP: it checks that the input
exists, resolves the output directory (creating it when supplied and
absent), flattens alpha/palette images onto a white background,
conditionally downscales to a maximum width, and encodes to WebP.  A
directory driver enumerates supported-extension files and invokes the
single-file transform per file, counting successes.

We embed the script shallowly: the filesystem is an explicit state
(association list of files, list of directories, output log), Python
exceptions are an `Except` layer whose error carries the state at raise
time, and the IEEE-754 double arithmetic used by the resize-height
computation (`int(original_height * (max_width / original_width))`) is
modelled exactly by integer round-to-nearest-even at 53 bits of
precision.
-/

namespace ImgOpt

/-! ### Pixel model -/

/-- Color modes of the closed set handled by the script
(`RGB`, `RGBA`, `LA`, `P`, plus `L` standing for the other
single-band modes reaching the `convert('RGB')` branch). -/
inductive Mode where
  | RGB | RGBA | LA | P | L
deriving DecidableEq

/-- A pixel, tagged by the band layout it carries. -/
inductive Pix where
  | rgb (r g b : Nat)
  | rgba (r g b a : Nat)
  | la (l a : Nat)
  | pal (i : Nat)
  | lum (v : Nat)
deriving DecidableEq

/-- An in-memory image: mode, dimensions, pixel access and (for `P`
mode) the palette mapping an index to an RGBA quadruple. -/
structure Img where
  mode : Mode
  width : Nat
  height : Nat
  px : Nat → Nat → Pix
  palette : Nat → Nat × Nat × Nat × Nat

/-- Whether a pixel's constructor matches a mode. -/
def Pix.matchesMode : Pix → Mode → Bool
  | .rgb _ _ _, .RGB => true
  | .rgba _ _ _ _, .RGBA => true
  | .la _ _, .LA => true
  | .pal _, .P => true
  | .lum _, .L => true
  | _, _ => false

/-- Well-formed image: every in-range pixel matches the image's mode. -/
def Img.WF (im : Img) : Prop :=
  ∀ x y, x < im.width → y < im.height → (im.px x y).matchesMode im.mode = true

/-! ### Alpha compositing (Pillow's `paste` blend)

Pillow's `paste` with an 8-bit `L` mask blends each channel as
`MULDIV255(background, 255 - mask) + MULDIV255(source, mask)` where
`MULDIV255(a, b)` is `(t >> 8) + t) >> 8` with `t = a*b + 128`. -/

/-- Pillow's `MULDIV255` rounding primitive. -/
def muldiv255 (a b : Nat) : Nat :=
  let t := a * b + 128
  (t / 256 + t) / 256

/-- One channel of pasting a source channel `c` with mask value `a`
onto the white (255) background. -/
def blendWhite (c a : Nat) : Nat :=
  muldiv255 255 (255 - a) + muldiv255 c a

/-- `img.convert('RGBA')` on a palette image: look each index up in the
palette.  Other constructors are unreachable on a well-formed `P`
image and are passed through. -/
def convertRGBA (im : Img) : Img :=
  { mode := .RGBA, width := im.width, height := im.height,
    px := fun x y =>
      match im.px x y with
      | .pal i =>
        match im.palette i with
        | (r, g, b, a) => .rgba r g b a
      | p => p,
    palette := im.palette }

/-- Conversion of any pixel to a three-channel `RGB` pixel, as Pillow's
mode conversion does it: `L`/`LA` replicate the luminance band (alpha
dropped), `RGBA` drops alpha, `P` looks the palette up. -/
def Pix.toRGB (palette : Nat → Nat × Nat × Nat × Nat) : Pix → Pix
  | .rgb r g b => .rgb r g b
  | .rgba r g b _ => .rgb r g b
  | .la l _ => .rgb l l l
  | .pal i =>
    match palette i with
    | (r, g, b, _) => .rgb r g b
  | .lum v => .rgb v v v

/-- `img.convert('RGB')`; also the effect of pasting a non-`RGBA` image
onto an `RGB` background without a mask (Pillow converts the pasted
image to the background's mode, ignoring alpha). -/
def convertRGB (im : Img) : Img :=
  { mode := .RGB, width := im.width, height := im.height,
    px := fun x y => (im.px x y).toRGB im.palette,
    palette := im.palette }

/-- Pasting an `RGBA` image onto a white `RGB` background of the same
size using the image's alpha band as the mask (`img.split()[-1]`). -/
def pasteWhiteRGBA (im : Img) : Img :=
  { mode := .RGB, width := im.width, height := im.height,
    px := fun x y =>
      match im.px x y with
      | .rgba r g b a => .rgb (blendWhite r a) (blendWhite g a) (blendWhite b a)
      | p => p,
    palette := im.palette }

/-- Lines 45–52 of `optimize_image`: modes `RGBA`, `LA`, `P` go through
the white-background paste (with `P` first converted to `RGBA`, and the
mask supplied only when the pasted image's mode is `RGBA`); any other
non-`RGB` mode is converted to `RGB`. -/
def flatten (im : Img) : Img :=
  if im.mode = .RGBA ∨ im.mode = .LA ∨ im.mode = .P then
    let im2 := if im.mode = .P then convertRGBA im else im
    if im2.mode = .RGBA then pasteWhiteRGBA im2 else convertRGB im2
  else if im.mode ≠ .RGB then convertRGB im
  else im

/-! ### IEEE-754 double model for the resize height

The script computes `ratio = max_width / original_width` (a Python
float, i.e. an IEEE-754 binary64 value, correctly rounded to nearest
with ties to even) and then `int(original_height * ratio)` (a second
correctly rounded multiplication, then truncation toward zero).  For
the value ranges reachable here (positive, far from overflow and
subnormals) this is pure integer arithmetic on 53-bit significands,
which we model exactly. -/

/-- Number of bits of `n` (`0` for `0`), by fuel recursion so that the
kernel evaluates it. -/
def bitlenAux : Nat → Nat → Nat
  | 0, _ => 0
  | fuel + 1, n => if n = 0 then 0 else bitlenAux fuel (n / 2) + 1

/-- Bit length of a natural number. -/
def bitlen (n : Nat) : Nat := bitlenAux n n

/-- Round `n / d` to the nearest integer, ties to even (`d > 0`). -/
def rne (n d : Nat) : Nat :=
  let q := n / d
  let r := n % d
  if d < 2 * r then q + 1
  else if 2 * r < d then q
  else q + q % 2

/-- The binary64 value of `mw / w` for `0 < mw < w`, returned as a pair
`(m, e)` denoting the dyadic rational `m / 2 ^ e` with
`2 ^ 52 ≤ m ≤ 2 ^ 53`. -/
def divDouble (mw w : Nat) : Nat × Nat :=
  let d := bitlen w - bitlen mw
  let e := if w ≤ mw * 2 ^ d then 52 + d else 53 + d
  (rne (mw * 2 ^ e) w, e)

/-- `int(h * x)` where `x = m / 2 ^ e` is a binary64 value in `(0, 1)`:
the product is rounded to 53 significant bits (nearest, ties to even)
and then truncated toward zero. -/
def mulDoubleTrunc (h m e : Nat) : Nat :=
  let P := h * m
  if P < 2 ^ 53 then P / 2 ^ e
  else
    let s := bitlen P - 53
    let m2 := rne P (2 ^ s)
    if e ≤ s then m2 * 2 ^ (s - e) else m2 / 2 ^ (e - s)

/-- `int(original_height * (max_width / original_width))` as computed
by the script in binary64 arithmetic, for `original_width > max_width`. -/
def new_height (h w mw : Nat) : Nat :=
  if mw = 0 then 0
  else
    let p := divDouble mw w
    mulDoubleTrunc h p.1 p.2

/-! ### Paths and the filesystem state -/

/-- A filesystem path as a list of components; the last component is
the file or directory name. -/
abbrev FPath := List String

/-- Render a path (for log messages). -/
def pathStr (p : FPath) : String := String.intercalate "/" p

/-- The last component of a path. -/
def pname (p : FPath) : String := p.getLastD ""

/-- Index of the last `'.'` in a list of characters. -/
def lastDot (cs : List Char) : Option Nat :=
  match cs.reverse.findIdx? (fun c => c = '.') with
  | none => none
  | some j => some (cs.length - 1 - j)

/-- `pathlib.PurePath.suffix`: the extension of the final component,
including the dot, provided the last dot is neither the first nor the
last character of the name. -/
def pySuffix (s : String) : String :=
  let cs := s.data
  match lastDot cs with
  | none => ""
  | some i => if 0 < i ∧ i + 1 < cs.length then String.mk (cs.drop i) else ""

/-- `pathlib.PurePath.stem`: the final component without its suffix. -/
def pyStem (s : String) : String :=
  let cs := s.data
  match lastDot cs with
  | none => s
  | some i => if 0 < i ∧ i + 1 < cs.length then String.mk (cs.take i) else s

/-- ASCII lowercasing, as `str.lower()` behaves on extensions. -/
def strLower (s : String) : String := String.mk (s.data.map Char.toLower)

/-- Contents of a file in the model: a decodable image, a WebP file
produced by the encoder (recording the encode parameters), or plain
non-image bytes. -/
inductive Content where
  | image (im : Img)
  | webpFile (im : Img) (quality method : Nat) (lossless : Bool)
  | text (s : String)

/-- The filesystem and console state threaded through the script:
an association list of files (newest first, earlier entries shadow
later ones), the set of directories, and the printed log. -/
structure FS where
  files : List (FPath × Content)
  dirs : List FPath
  log : List String

/-- First-match association lookup. -/
def lookupF : List (FPath × Content) → FPath → Option Content
  | [], _ => none
  | e :: rest, p => if p = e.1 then some e.2 else lookupF rest p

/-- `Path.is_file()`. -/
def FS.isFile (fs : FS) (p : FPath) : Bool := (lookupF fs.files p).isSome

/-- `Path.is_dir()`. -/
def FS.isDir (fs : FS) (p : FPath) : Bool := decide (p ∈ fs.dirs)

/-- `Path.exists()`. -/
def FS.existsP (fs : FS) (p : FPath) : Bool := fs.isFile p || fs.isDir p

/-- Append one printed line to the log. -/
def FS.logMsg (fs : FS) (m : String) : FS := { fs with log := fs.log ++ [m] }

/-- All nonempty prefixes of a path, shortest first. -/
def prefixesNE (p : FPath) : List FPath :=
  (List.range p.length).map (fun k => p.take (k + 1))

/-- Python-level exceptions that can escape or be caught. -/
inductive PyErr where
  | fileExists
  | writeError
deriving DecidableEq

/-- `Path.mkdir(parents=True, exist_ok=True)`: raises when the target
or one of its ancestors exists as a regular file, otherwise records the
whole prefix chain as directories.  The error carries the state at
raise time (Python exceptions do not roll state back). -/
def mkdirParents (fs : FS) (d : FPath) : Except (PyErr × FS) FS :=
  if (prefixesNE d).any (fun q => (lookupF fs.files q).isSome) then
    .error (.fileExists, fs)
  else
    .ok { fs with dirs := prefixesNE d ++ fs.dirs }

/-- Record a file at `p`, shadowing any previous entry. -/
def setFile (fs : FS) (p : FPath) (c : Content) : FS :=
  { fs with files := (p, c) :: fs.files }

/-- `img.save(path, ...)`: raises when the target is a directory or its
parent directory does not exist; otherwise writes the file (overwriting
any existing file at that path without warning). -/
def saveFile (fs : FS) (p : FPath) (c : Content) : Except (PyErr × FS) FS :=
  if fs.isDir p || !fs.isDir p.dropLast then .error (.writeError, fs)
  else .ok (setFile fs p c)

/-- `decode` (`Image.open`): only image contents decode; a missing
file, a directory or non-image bytes raise (which the caller catches). -/
def decodeContent : Option Content → Option Img
  | some (.image im) => some im
  | some (.webpFile im _ _ _) => some im
  | some (.text _) => none
  | none => none

/-! ### The single-image transform (`optimize_image`) -/

/-- The type of the resampling filter used by `img.resize(..., LANCZOS)`:
given the source image and the target dimensions, it produces the new
pixel function.  The pipeline is parametric in it, as no claim depends
on the filter's kernel. -/
abbrev Resample := Img → Nat → Nat → Nat → Nat → Pix

/-- `img.resize((w, h), Image.Resampling.LANCZOS)`. -/
def resizeImg (resample : Resample) (im : Img) (w h : Nat) : Img :=
  { mode := im.mode, width := w, height := h,
    px := fun x y => resample im w h x y,
    palette := im.palette }

/-- The image that reaches `img.save`: the flattened buffer, downscaled
to `(mw, new_height ...)` exactly when the flattened width exceeds
`mw`. -/
def finalImg (resample : Resample) (im : Img) (mw : Nat) : Img :=
  if mw < (flatten im).width then
    resizeImg resample (flatten im) mw
      (new_height (flatten im).height (flatten im).width mw)
  else flatten im

/-- The output path resolved at lines 29–37: the supplied output
directory when given, else the input's parent, joined with the input's
stem plus `.webp`. -/
def resolvedOut (input : FPath) (outDir : Option FPath) : FPath :=
  (match outDir with
   | some d => d
   | none => input.dropLast) ++ [pyStem (pname input) ++ ".webp"]

/-- The `try:` block of `optimize_image` (lines 39–89): open, flatten,
conditionally resize, save, report — any exception inside is caught and
turned into a `False` return. -/
def tryBody (resample : Resample) (fs : FS) (input outPath : FPath) (mw q : Nat) :
    Bool × FS :=
  let fs1 := fs.logMsg ("Processing: " ++ pname input)
  match decodeContent (lookupF fs.files input) with
  | none => (false, fs1.logMsg ("   Error processing " ++ pname input))
  | some im =>
    let fs2 :=
      if mw < (flatten im).width then fs1.logMsg "   Resized"
      else fs1.logMsg "   Size: (no resize needed)"
    match saveFile fs2 outPath (.webpFile (finalImg resample im mw) q 6 false) with
    | .error (_, fs3) => (false, fs3.logMsg ("   Error processing " ++ pname input))
    | .ok fs3 => (true, (fs3.logMsg ("   Saved: " ++ pathStr outPath)).logMsg "")

/-- `optimize_image(input_path, output_dir, max_width, quality)`.
The existence check and the `mkdir` of the supplied output directory
happen before the `try:` block, so a `mkdir` failure escapes as an
uncaught exception (`.error`); everything inside the `try:` is caught
and yields an `.ok (false, _)` return. -/
def optimize_image (resample : Resample) (fs : FS) (input : FPath)
    (outDir : Option FPath) (mw q : Nat) : Except (PyErr × FS) (Bool × FS) :=
  if fs.existsP input then
    match outDir with
    | some d =>
      match mkdirParents fs d with
      | .error e => .error e
      | .ok fs' => .ok (tryBody resample fs' input (resolvedOut input outDir) mw q)
    | none => .ok (tryBody resample fs input (resolvedOut input outDir) mw q)
  else
    .ok (false, fs.logMsg ("Error: File not found: " ++ pathStr input))

/-! ### The batch driver (`optimize_directory`) -/

/-- The supported extensions (line 109). -/
def supported_formats : List String :=
  [".png", ".jpg", ".jpeg", ".gif", ".bmp", ".tiff", ".webp"]

/-- `f.suffix.lower() in supported_formats`. -/
def supportedSuffix (p : FPath) : Bool :=
  supported_formats.contains (strLower (pySuffix (pname p)))

/-- `input_dir.iterdir()`: the file and directory entries whose parent
is `dir` (one level, no recursion). -/
def iterdir (fs : FS) (dir : FPath) : List FPath :=
  (fs.files.map Prod.fst ++ fs.dirs).filter
    (fun p => decide (p ≠ [] ∧ p.dropLast = dir))

/-- Lines 112–115: the candidate images of a directory — its regular
files with a supported extension. -/
def imagesOf (fs : FS) (dir : FPath) : List FPath :=
  (iterdir fs dir).filter (fun f => fs.isFile f && supportedSuffix f)

/-- The `for img_path in images:` loop (lines 129–132), returning the
number of `optimize_image` invocations made, the success tally, and the
final state; an uncaught exception from `optimize_image` aborts the
loop. -/
def runBatch (resample : Resample) (outDir : Option FPath) (mw q : Nat) :
    FS → List FPath → Except (PyErr × FS) (Nat × Nat × FS)
  | fs, [] => .ok (0, 0, fs)
  | fs, p :: rest =>
    match optimize_image resample fs p outDir mw q with
    | .error e => .error e
    | .ok (b, fs') =>
      match runBatch resample outDir mw q fs' rest with
      | .error e => .error e
      | .ok (att, suc, fs'') => .ok (att + 1, (if b then 1 else 0) + suc, fs'')

/-- `optimize_directory(input_dir, output_dir, max_width, quality)`. -/
def optimize_directory (resample : Resample) (fs : FS) (dir : FPath)
    (outDir : Option FPath) (mw q : Nat) : Except (PyErr × FS) (Nat × Nat × FS) :=
  if fs.existsP dir then
    let imgs := imagesOf fs dir
    if imgs.isEmpty then
      .ok (0, 0, fs.logMsg ("No images found in " ++ pathStr dir))
    else
      match runBatch resample outDir mw q (fs.logMsg "Found images to optimize") imgs with
      | .error e => .error e
      | .ok (att, suc, fs') => .ok (att, suc, fs'.logMsg "Complete!")
  else
    .ok (0, 0, fs.logMsg ("Error: Directory not found: " ++ pathStr dir))

/-- The dispatch at the end of `main` (lines 210–217): a file goes to
`optimize_image`, a directory to `optimize_directory`, anything else
prints an error and exits 1.  An uncaught exception also terminates the
interpreter with exit status 1. -/
def mainDispatch (resample : Resample) (fs : FS) (input : FPath)
    (outDir : Option FPath) (mw q : Nat) : Nat × FS :=
  if fs.isFile input then
    match optimize_image resample fs input outDir mw q with
    | .ok (_, fs') => (0, fs')
    | .error (_, fs') => (1, fs')
  else if fs.isDir input then
    match optimize_directory resample fs input outDir mw q with
    | .ok (_, _, fs') => (0, fs')
    | .error (_, fs') => (1, fs')
  else
    (1, fs.logMsg ("Error: Not a file or directory: " ++ pathStr input))

/-! ### Derived notions used by the statements -/

/-- Precondition for the pre-`try` `mkdir` call not to raise: when an
output directory is supplied it is a nonempty path none of whose
prefixes exists as a regular file. -/
def MkdirOk (fs : FS) : Option FPath → Prop
  | some d => d ≠ [] ∧ ∀ p ∈ prefixesNE d, (lookupF fs.files p).isNone = true
  | none => True

/-- The directory set after the output-directory resolution step. -/
def dirsAfter (fs : FS) : Option FPath → List FPath
  | some d => prefixesNE d ++ fs.dirs
  | none => fs.dirs

/-- Precondition for `img.save` not to raise: the output path is not a
directory, and (when no output directory is supplied, so no `mkdir`
runs) the input's parent directory exists. -/
def SaveOk (fs : FS) (input : FPath) (outDir : Option FPath) : Prop :=
  resolvedOut input outDir ∉ dirsAfter fs outDir ∧
  (outDir = none → input.dropLast ∈ fs.dirs)

instance (fs : FS) (o : Option FPath) : Decidable (MkdirOk fs o) := by
  cases o <;> unfold MkdirOk <;> infer_instance

instance (fs : FS) (input : FPath) (o : Option FPath) :
    Decidable (SaveOk fs input o) := by
  unfold SaveOk
  infer_instance

/-- The filesystem state an `optimize_image` call leaves behind,
whether it returns or raises. -/
def resultFS : Except (PyErr × FS) (Bool × FS) → FS
  | .ok (_, fs) => fs
  | .error (_, fs) => fs

/-- Dimensions of the WebP file recorded at `p` after a run. -/
def savedDims (r : Except (PyErr × FS) (Bool × FS)) (p : FPath) : Option (Nat × Nat) :=
  match r with
  | .ok (_, fs) =>
    match lookupF fs.files p with
    | some (.webpFile im _ _ _) => some (im.width, im.height)
    | _ => none
  | _ => none

/-- Pixel `(x, y)` of the WebP file recorded at `p` after a run. -/
def savedPx (r : Except (PyErr × FS) (Bool × FS)) (p : FPath) (x y : Nat) : Option Pix :=
  match r with
  | .ok (_, fs) =>
    match lookupF fs.files p with
    | some (.webpFile im _ _ _) => some (im.px x y)
    | _ => none
  | _ => none

/-- Error of a batch run, when one escaped. -/
def errOf (r : Except (PyErr × FS) (Nat × Nat × FS)) : Option PyErr :=
  match r with
  | .error (e, _) => some e
  | .ok _ => none

/-- Log carried by an uncaught batch exception. -/
def errLog (r : Except (PyErr × FS) (Nat × Nat × FS)) : Option (List String) :=
  match r with
  | .error (_, fs) => some fs.log
  | .ok _ => none

/-! ### Concrete fixtures for counterexamples and witnesses -/

/-- A trivial (nearest-pixel) instantiation of the resampling filter. -/
def sampleResample : Resample := fun im _ _ x y => im.px x y

/-- A 22×22 RGB image. -/
def img22 : Img := ⟨.RGB, 22, 22, fun _ _ => .rgb 1 2 3, fun _ => (0, 0, 0, 0)⟩

/-- A 1×1 luminance+alpha image whose single pixel is black and fully
transparent. -/
def imgLA : Img := ⟨.LA, 1, 1, fun _ _ => .la 0 0, fun _ => (0, 0, 0, 0)⟩

/-- A 1×1 RGBA image, fully transparent. -/
def imgRGBA0 : Img := ⟨.RGBA, 1, 1, fun _ _ => .rgba 10 20 30 0, fun _ => (0, 0, 0, 0)⟩

/-- Filesystem with one 22×22 PNG under `in/`. -/
def fsC1 : FS := ⟨[(["in", "a.png"], .image img22)], [["in"]], []⟩

/-- Filesystem with one LA PNG under `in/`. -/
def fsC2 : FS := ⟨[(["in", "a.png"], .image imgLA)], [["in"]], []⟩

/-- Filesystem with two decodable PNGs under `pics/` and a regular file
at `out` blocking creation of the output directory. -/
def fsC4 : FS :=
  ⟨[(["pics", "a.png"], .image img22), (["pics", "b.png"], .image img22),
    (["out"], .text "blocker")], [["pics"]], []⟩

/-- Filesystem with two supported images, one unsupported file and one
subdirectory under `pics/`. -/
def fsC5 : FS :=
  ⟨[(["pics", "a.png"], .image img22), (["pics", "b.JPG"], .image img22),
    (["pics", "notes.txt"], .text "t")], [["pics"], ["pics", "sub"]], []⟩

/-- Filesystem with a directory `pics/` holding only a text file. -/
def fsC8 : FS := ⟨[(["pics", "notes.txt"], .text "t")], [["pics"]], []⟩

/-- Filesystem with an undecodable `.png` under `in/`. -/
def fsC9 : FS := ⟨[(["in", "bad.png"], .text "not an image")], [["in"]], []⟩

/-! ### Basic lemmas about the pixel pipeline -/

theorem muldiv255_zero (c : Nat) : muldiv255 c 0 = 0 := by
  simp [muldiv255]

set_option maxRecDepth 4096 in
theorem muldiv255_of_255 : ∀ c < 256, muldiv255 c 255 = c := by decide

theorem blendWhite_transparent (c : Nat) : blendWhite c 0 = 255 := by
  simp [blendWhite, muldiv255]

theorem blendWhite_opaque (c : Nat) (hc : c < 256) : blendWhite c 255 = c := by
  have h1 : muldiv255 255 0 = 0 := by decide
  have h2 := muldiv255_of_255 c hc
  simp [blendWhite, h1, h2]

theorem flatten_width (im : Img) : (flatten im).width = im.width := by
  cases hm : im.mode <;>
    simp [flatten, hm, pasteWhiteRGBA, convertRGB, convertRGBA]

theorem flatten_height (im : Img) : (flatten im).height = im.height := by
  cases hm : im.mode <;>
    simp [flatten, hm, pasteWhiteRGBA, convertRGB, convertRGBA]

theorem finalImg_width_le (resample : Resample) (im : Img) (mw : Nat) :
    (finalImg resample im mw).width ≤ mw := by
  unfold finalImg
  split
  · simp [resizeImg]
  · next h => exact Nat.le_of_not_lt h

/-! ### Lemmas about the filesystem primitives -/

theorem lookupF_cons_self (l : List (FPath × Content)) (p : FPath) (c : Content) :
    lookupF ((p, c) :: l) p = some c := by
  simp [lookupF]

theorem lookupF_cons_ne (l : List (FPath × Content)) (p r : FPath) (c : Content)
    (h : r ≠ p) : lookupF ((p, c) :: l) r = lookupF l r := by
  simp [lookupF, h]

theorem self_mem_prefixesNE (d : FPath) (hd : d ≠ []) : d ∈ prefixesNE d := by
  have hlen : 0 < d.length := List.length_pos.mpr hd
  refine List.mem_map.mpr ⟨d.length - 1, List.mem_range.mpr ?_, ?_⟩
  · omega
  · rw [Nat.sub_add_cancel hlen, List.take_length]

theorem length_of_mem_prefixesNE (d p : FPath) (hp : p ∈ prefixesNE d) :
    p.length ≤ d.length := by
  rcases List.mem_map.mp hp with ⟨k, hk, rfl⟩
  simp [List.length_take]

theorem mkdirParents_ok (fs : FS) (d : FPath)
    (h : ∀ p ∈ prefixesNE d, lookupF fs.files p = none) :
    mkdirParents fs d = .ok { fs with dirs := prefixesNE d ++ fs.dirs } := by
  have hany : (prefixesNE d).any (fun q => (lookupF fs.files q).isSome) = false := by
    simp only [List.any_eq_false]
    intro p hp
    simp [h p hp]
  unfold mkdirParents
  simp [hany]

theorem mkdirParents_shape (fs : FS) (d : FPath) :
    mkdirParents fs d = .error (.fileExists, fs) ∨
    mkdirParents fs d = .ok { fs with dirs := prefixesNE d ++ fs.dirs } := by
  unfold mkdirParents
  split
  · exact Or.inl rfl
  · exact Or.inr rfl

theorem lookupF_isSome_iff_mem (l : List (FPath × Content)) (p : FPath) :
    (lookupF l p).isSome = true ↔ p ∈ l.map Prod.fst := by
  induction l with
  | nil => simp [lookupF]
  | cons e rest ih =>
    rw [lookupF, List.map_cons]
    by_cases h : p = e.1
    · rw [if_pos h]
      simp only [Option.isSome_some, List.mem_cons]
      exact ⟨fun _ => Or.inl h, fun _ => trivial⟩
    · rw [if_neg h, ih]
      simp only [List.mem_cons]
      constructor
      · exact Or.inr
      · rintro (h1 | h1)
        · exact absurd h1 h
        · exact h1

theorem decode_isSome (fs : FS) (input : FPath) (im : Img)
    (hdec : decodeContent (lookupF fs.files input) = some im) :
    (lookupF fs.files input).isSome = true := by
  cases h : lookupF fs.files input with
  | none => rw [h] at hdec; simp [decodeContent] at hdec
  | some c => rfl

theorem existsP_of_decode (fs : FS) (input : FPath) (im : Img)
    (hdec : decodeContent (lookupF fs.files input) = some im) :
    fs.existsP input = true := by
  simp [FS.existsP, FS.isFile, decode_isSome fs input im hdec]

theorem saveFile_ok (fs : FS) (p : FPath) (c : Content)
    (hnd : p ∉ fs.dirs) (hpd : p.dropLast ∈ fs.dirs) :
    saveFile fs p c = .ok (setFile fs p c) := by
  simp [saveFile, FS.isDir, hnd, hpd]

/-- Success of the `try:` block: with a decodable input and a writable
output path, it saves the final image and returns `True`. -/
theorem tryBody_success (resample : Resample) (fs : FS) (input outPath : FPath)
    (mw q : Nat) (im : Img)
    (hdec : decodeContent (lookupF fs.files input) = some im)
    (hnd : outPath ∉ fs.dirs) (hpd : outPath.dropLast ∈ fs.dirs) :
    ∃ fs', tryBody resample fs input outPath mw q = (true, fs') ∧
      fs'.files = (outPath, .webpFile (finalImg resample im mw) q 6 false) :: fs.files ∧
      fs'.dirs = fs.dirs := by
  unfold tryBody
  rw [hdec]
  dsimp only
  set fs2 := (if mw < (flatten im).width then
      (fs.logMsg ("Processing: " ++ pname input)).logMsg "   Resized"
    else
      (fs.logMsg ("Processing: " ++ pname input)).logMsg "   Size: (no resize needed)")
    with hfs2
  have hdirs : fs2.dirs = fs.dirs := by rw [hfs2]; split <;> rfl
  have hfiles : fs2.files = fs.files := by rw [hfs2]; split <;> rfl
  rw [saveFile_ok fs2 _ _ (by rw [hdirs]; exact hnd) (by rw [hdirs]; exact hpd)]
  refine ⟨_, rfl, ?_, ?_⟩
  · simp [setFile, FS.logMsg, hfiles]
  · simp [setFile, FS.logMsg, hdirs]

/-- Master lemma: under a decodable input, a raise-free `mkdir` and a
writable output location, `optimize_image` returns `True` having
written exactly the encoded final image at the resolved output path and
extended the directory set as `mkdir` does. -/
theorem optimize_image_success (resample : Resample) (fs : FS) (input : FPath)
    (outDir : Option FPath) (mw q : Nat) (im : Img)
    (hdec : decodeContent (lookupF fs.files input) = some im)
    (hmk : MkdirOk fs outDir) (hsv : SaveOk fs input outDir) :
    ∃ fs', optimize_image resample fs input outDir mw q = .ok (true, fs') ∧
      fs'.files = (resolvedOut input outDir,
        .webpFile (finalImg resample im mw) q 6 false) :: fs.files ∧
      fs'.dirs = dirsAfter fs outDir := by
  have hex := existsP_of_decode fs input im hdec
  cases outDir with
  | none =>
    have hnd : resolvedOut input none ∉ fs.dirs := hsv.1
    have hpd : (resolvedOut input none).dropLast ∈ fs.dirs := by
      have : (resolvedOut input none).dropLast = input.dropLast := by
        simp [resolvedOut, List.dropLast_concat]
      rw [this]
      exact hsv.2 rfl
    obtain ⟨fs', h1, h2, h3⟩ :=
      tryBody_success resample fs input (resolvedOut input none) mw q im hdec hnd hpd
    exact ⟨fs', by simp [optimize_image, hex, h1], h2, by simp [dirsAfter, h3]⟩
  | some d =>
    obtain ⟨hdne, hpref⟩ := hmk
    have hmk' := mkdirParents_ok fs d
      (fun p hp => Option.isNone_iff_eq_none.mp (hpref p hp))
    set fs1 : FS := { fs with dirs := prefixesNE d ++ fs.dirs } with hfs1
    have hdec1 : decodeContent (lookupF fs1.files input) = some im := hdec
    have hnd : resolvedOut input (some d) ∉ fs1.dirs := hsv.1
    have hpd : (resolvedOut input (some d)).dropLast ∈ fs1.dirs := by
      have : (resolvedOut input (some d)).dropLast = d := by
        simp [resolvedOut, List.dropLast_concat]
      rw [this]
      exact List.mem_append_left _ (self_mem_prefixesNE d hdne)
    obtain ⟨fs', h1, h2, h3⟩ :=
      tryBody_success resample fs1 input (resolvedOut input (some d)) mw q im hdec1 hnd hpd
    exact ⟨fs', by simp [optimize_image, hex, hmk', h1], h2, by simp [dirsAfter, h3]⟩

/-- Shape of every `try:` block outcome: it never raises, touches no
directory, writes at most the single file at `outPath`, and prints at
least one line. -/
theorem tryBody_shape (resample : Resample) (fs : FS) (input outPath : FPath)
    (mw q : Nat) :
    ∃ b fs', tryBody resample fs input outPath mw q = (b, fs') ∧
      (fs'.files = fs.files ∨ ∃ c, fs'.files = (outPath, c) :: fs.files) ∧
      fs'.dirs = fs.dirs ∧ fs.log.length < fs'.log.length := by
  unfold tryBody
  cases hdec : decodeContent (lookupF fs.files input) with
  | none =>
    dsimp only
    exact ⟨false, _, rfl, Or.inl rfl, rfl, by simp [FS.logMsg]⟩
  | some im =>
    dsimp only
    set fs2 := (if mw < (flatten im).width then
        (fs.logMsg ("Processing: " ++ pname input)).logMsg "   Resized"
      else
        (fs.logMsg ("Processing: " ++ pname input)).logMsg "   Size: (no resize needed)")
      with hfs2
    have hfiles : fs2.files = fs.files := by rw [hfs2]; split <;> rfl
    have hdirs : fs2.dirs = fs.dirs := by rw [hfs2]; split <;> rfl
    have hlog : fs2.log.length = fs.log.length + 2 := by
      rw [hfs2]; split <;> simp [FS.logMsg]
    by_cases hc : (fs2.isDir outPath || !fs2.isDir (List.dropLast outPath)) = true
    · have hsv : saveFile fs2 outPath (.webpFile (finalImg resample im mw) q 6 false) =
          .error (.writeError, fs2) := by
        unfold saveFile; rw [if_pos hc]
      rw [hsv]
      refine ⟨false, _, rfl, Or.inl ?_, ?_, ?_⟩
      · simpa [FS.logMsg] using hfiles
      · simpa [FS.logMsg] using hdirs
      · simp [FS.logMsg]; omega
    · have hsv : saveFile fs2 outPath (.webpFile (finalImg resample im mw) q 6 false) =
          .ok (setFile fs2 outPath (.webpFile (finalImg resample im mw) q 6 false)) := by
        unfold saveFile; rw [if_neg hc]
      rw [hsv]
      refine ⟨true, _, rfl,
        Or.inr ⟨.webpFile (finalImg resample im mw) q 6 false, ?_⟩, ?_, ?_⟩
      · simp [FS.logMsg, setFile, hfiles]
      · simp [FS.logMsg, setFile, hdirs]
      · simp [FS.logMsg, setFile]; omega

/-- Under a raise-free `mkdir` precondition, `optimize_image` never
raises: every outcome is an `.ok` return, the precondition is
preserved for later files, and at least one line is printed. -/
theorem optimize_image_no_raise (resample : Resample) (fs : FS) (input : FPath)
    (outDir : Option FPath) (mw q : Nat) (hmk : MkdirOk fs outDir) :
    ∃ b fs', optimize_image resample fs input outDir mw q = .ok (b, fs') ∧
      MkdirOk fs' outDir ∧ fs.log.length < fs'.log.length := by
  by_cases hex : fs.existsP input = true
  · cases outDir with
    | none =>
      obtain ⟨b, fs', hb, _, _, hlog⟩ :=
        tryBody_shape resample fs input (resolvedOut input none) mw q
      exact ⟨b, fs', by simp [optimize_image, hex, hb], trivial, hlog⟩
    | some d =>
      obtain ⟨hdne, hpref⟩ := hmk
      have hmk' := mkdirParents_ok fs d
        (fun p hp => Option.isNone_iff_eq_none.mp (hpref p hp))
      set fs1 : FS := { fs with dirs := prefixesNE d ++ fs.dirs } with hfs1
      obtain ⟨b, fs', hb, hfl, hds, hlog⟩ :=
        tryBody_shape resample fs1 input (resolvedOut input (some d)) mw q
      refine ⟨b, fs', ?_, ⟨hdne, ?_⟩, ?_⟩
      · simp [optimize_image, hex, hmk', hb]
      · intro p hp
        rcases hfl with h | ⟨c, h⟩
        · rw [h]; exact hpref p hp
        · rw [h, lookupF_cons_ne]
          · exact hpref p hp
          · intro hpe
            have h1 := length_of_mem_prefixesNE d p hp
            rw [hpe] at h1
            simp [resolvedOut] at h1
      · exact hlog
  · have hex' : fs.existsP input = false := by
      revert hex; cases fs.existsP input <;> simp
    refine ⟨false, fs.logMsg ("Error: File not found: " ++ pathStr input),
      by simp [optimize_image, hex'], ?_, by simp [FS.logMsg]⟩
    cases outDir with
    | none => trivial
    | some d => exact hmk

/-- The batch loop never aborts when the `mkdir` precondition holds: it
invokes the transform once per candidate, tallies at most one success
per candidate, and prints at least one line per candidate. -/
theorem runBatch_ok (resample : Resample) (outDir : Option FPath) (mw q : Nat) :
    ∀ (ps : List FPath) (fs : FS), MkdirOk fs outDir →
    ∃ suc fs', runBatch resample outDir mw q fs ps = .ok (ps.length, suc, fs') ∧
      suc ≤ ps.length ∧ fs.log.length + ps.length ≤ fs'.log.length := by
  intro ps
  induction ps with
  | nil => exact fun fs _ => ⟨0, fs, rfl, Nat.le_refl 0, by simp⟩
  | cons p rest ih =>
    intro fs hmk
    obtain ⟨b, fs1, hb, hmk1, hlog1⟩ :=
      optimize_image_no_raise resample fs p outDir mw q hmk
    obtain ⟨suc, fs2, hrun, hsuc, hlog2⟩ := ih fs1 hmk1
    refine ⟨(if b then 1 else 0) + suc, fs2, ?_, ?_, ?_⟩
    · simp [runBatch, hb, hrun]
    · cases b <;> simp <;> omega
    · simp only [List.length_cons]; omega

/-- The directory driver under a raise-free `mkdir` precondition:
returns normally with exactly one transform invocation per candidate
image. -/
theorem optimize_directory_ok (resample : Resample) (fs : FS) (dir : FPath)
    (outDir : Option FPath) (mw q : Nat)
    (hmk : MkdirOk fs outDir) (hex : fs.existsP dir = true) :
    ∃ suc fs', optimize_directory resample fs dir outDir mw q =
      .ok ((imagesOf fs dir).length, suc, fs') ∧
      suc ≤ (imagesOf fs dir).length := by
  cases himg : imagesOf fs dir with
  | nil =>
    exact ⟨0, fs.logMsg ("No images found in " ++ pathStr dir),
      by simp [optimize_directory, hex, himg], by simp⟩
  | cons p rest =>
    have hmk1 : MkdirOk (fs.logMsg "Found images to optimize") outDir := by
      cases outDir with
      | none => trivial
      | some d => exact hmk
    obtain ⟨suc, fs2, hrun, hsuc, _⟩ :=
      runBatch_ok resample outDir mw q (p :: rest) (fs.logMsg "Found images to optimize") hmk1
    refine ⟨suc, fs2.logMsg "Complete!", ?_, by simpa using hsuc⟩
    simp [optimize_directory, hex, himg, hrun]

/-- Filesystem with one decodable and one undecodable candidate under
`pics/`. -/
def fsBatch : FS :=
  ⟨[(["pics", "a.png"], .image img22), (["pics", "bad.png"], .text "junk")],
   [["pics"]], []⟩

/-! ### Claims -/

/-- C1, counterexample: for the 22×22 image with `maxWidth = 15` the
saved output height is `int(22 * (15/22)) = 14` in binary64 arithmetic,
while `floor(22 × 15 / 22) = 15`, so the claimed output height
`floor(originalHeight × maxWidth / originalWidth)` does not hold. -/
theorem C1_floor_counterexample :
    img22.width = 22 ∧ img22.height = 22 ∧ 15 < (22 : Nat) ∧
    savedDims (optimize_image sampleResample fsC1 ["in", "a.png"] none 15 85)
      ["in", "a.webp"] = some (15, 14) ∧
    22 * 15 / 22 = 15 ∧ (14 : Nat) ≠ 15 :=
  ⟨rfl, rfl, by decide, by decide, by decide, by decide⟩

/-- C1 (amended): when the original width exceeds `maxWidth`, the
transform writes an output whose width is `maxWidth` and whose height
is the truncation of the binary64 product
`originalHeight * (maxWidth / originalWidth)` (`new_height`), which can
fall one below `floor(originalHeight × maxWidth / originalWidth)`. -/
theorem C1_resize_dims (resample : Resample) (fs : FS) (input : FPath)
    (outDir : Option FPath) (mw q : Nat) (im : Img)
    (hdec : decodeContent (lookupF fs.files input) = some im)
    (hmk : MkdirOk fs outDir) (hsv : SaveOk fs input outDir)
    (hw : mw < im.width) :
    ∃ fs', optimize_image resample fs input outDir mw q = .ok (true, fs') ∧
      lookupF fs'.files (resolvedOut input outDir) =
        some (.webpFile (finalImg resample im mw) q 6 false) ∧
      (finalImg resample im mw).width = mw ∧
      (finalImg resample im mw).height = new_height im.height im.width mw := by
  obtain ⟨fs', h1, h2, _⟩ :=
    optimize_image_success resample fs input outDir mw q im hdec hmk hsv
  have hw' : mw < (flatten im).width := by rw [flatten_width]; exact hw
  refine ⟨fs', h1, ?_, ?_, ?_⟩
  · rw [h2, lookupF_cons_self]
  · unfold finalImg
    rw [if_pos hw']
    simp [resizeImg]
  · unfold finalImg
    rw [if_pos hw']
    simp [resizeImg, flatten_width, flatten_height]

/-- C1 witness: the amended theorem applied to the 22×22 fixture. -/
theorem C1_resize_dims_witness :
    ∃ fs', optimize_image sampleResample fsC1 ["in", "a.png"] none 15 85 =
        .ok (true, fs') ∧
      lookupF fs'.files (resolvedOut ["in", "a.png"] none) =
        some (.webpFile (finalImg sampleResample img22 15) 85 6 false) ∧
      (finalImg sampleResample img22 15).width = 15 ∧
      (finalImg sampleResample img22 15).height = new_height 22 22 15 :=
  C1_resize_dims sampleResample fsC1 ["in", "a.png"] none 15 85 img22 rfl trivial
    (by decide) (by decide)

/-- C2, counterexample: an `LA` image is pasted without a mask, so its
alpha channel is ignored — the fully transparent black pixel of
`imgLA` comes out black, not white. -/
theorem C2_LA_counterexample :
    imgLA.mode = .LA ∧ imgLA.px 0 0 = .la 0 0 ∧
    savedPx (optimize_image sampleResample fsC2 ["in", "a.png"] none 300 85)
      ["in", "a.webp"] 0 0 = some (.rgb 0 0 0) ∧
    some (Pix.rgb 0 0 0) ≠ some (Pix.rgb 255 255 255) :=
  ⟨rfl, rfl, by decide, by decide⟩

/-- C2 (amended): the flatten step composites `RGBA` pixels (and `P`
pixels, via their palette entry) onto an opaque white background with
Pillow's rounded per-channel blend — fully transparent pixels become
white and fully opaque pixels pass through — while `LA` pixels are
pasted without the alpha mask: the luminance is replicated and the
alpha is ignored. -/
theorem C2_flatten_white (im : Img) (x y : Nat) :
    (∀ r g b a, im.mode = .RGBA → im.px x y = .rgba r g b a →
      (flatten im).px x y =
        .rgb (blendWhite r a) (blendWhite g a) (blendWhite b a) ∧
      (a = 0 → (flatten im).px x y = .rgb 255 255 255) ∧
      (a = 255 → r < 256 → g < 256 → b < 256 →
        (flatten im).px x y = .rgb r g b)) ∧
    (∀ i r g b a, im.mode = .P → im.px x y = .pal i →
      im.palette i = (r, g, b, a) →
      (flatten im).px x y =
        .rgb (blendWhite r a) (blendWhite g a) (blendWhite b a)) ∧
    (∀ l a, im.mode = .LA → im.px x y = .la l a →
      (flatten im).px x y = .rgb l l l) := by
  refine ⟨?_, ?_, ?_⟩
  · intro r g b a hm hp
    have hflat : (flatten im).px x y =
        .rgb (blendWhite r a) (blendWhite g a) (blendWhite b a) := by
      simp [flatten, hm, pasteWhiteRGBA, hp]
    refine ⟨hflat, ?_, ?_⟩
    · rintro rfl
      rw [hflat]
      simp [blendWhite_transparent]
    · rintro rfl hr hg hb
      rw [hflat, blendWhite_opaque r hr, blendWhite_opaque g hg,
        blendWhite_opaque b hb]
  · intro i r g b a hm hpx hpal
    simp [flatten, hm, pasteWhiteRGBA, convertRGBA, hpx, hpal]
  · intro l a hm hp
    simp [flatten, hm, convertRGB, Pix.toRGB, hp]

/-- C2 witness: the amended theorem applied to the fully transparent
RGBA fixture, whose pixel flattens to white. -/
theorem C2_flatten_white_witness :
    (flatten imgRGBA0).px 0 0 = .rgb 255 255 255 :=
  ((C2_flatten_white imgRGBA0 0 0).1 10 20 30 0 rfl rfl).2.1 rfl

/-- C3: an input no wider than `maxWidth` is saved unresized — the
written buffer is exactly the flattened image, with the original
dimensions — and in every successful run the written width is at most
`maxWidth`. -/
theorem C3_no_upscale (resample : Resample) (fs : FS) (input : FPath)
    (outDir : Option FPath) (mw q : Nat) (im : Img)
    (hdec : decodeContent (lookupF fs.files input) = some im)
    (hmk : MkdirOk fs outDir) (hsv : SaveOk fs input outDir) :
    ∃ fs', optimize_image resample fs input outDir mw q = .ok (true, fs') ∧
      lookupF fs'.files (resolvedOut input outDir) =
        some (.webpFile (finalImg resample im mw) q 6 false) ∧
      (finalImg resample im mw).width ≤ mw ∧
      (im.width ≤ mw →
        finalImg resample im mw = flatten im ∧
        (finalImg resample im mw).width = im.width ∧
        (finalImg resample im mw).height = im.height) := by
  obtain ⟨fs', h1, h2, _⟩ :=
    optimize_image_success resample fs input outDir mw q im hdec hmk hsv
  refine ⟨fs', h1, by rw [h2, lookupF_cons_self],
    finalImg_width_le resample im mw, ?_⟩
  intro hle
  have hnot : ¬ mw < (flatten im).width := by rw [flatten_width]; omega
  have heq : finalImg resample im mw = flatten im := by
    unfold finalImg
    rw [if_neg hnot]
  exact ⟨heq, by rw [heq, flatten_width], by rw [heq, flatten_height]⟩

/-- C3 witness: the 22×22 fixture with `maxWidth = 300` is written
unresized at 22×22. -/
theorem C3_no_upscale_witness :
    ∃ fs', optimize_image sampleResample fsC1 ["in", "a.png"] none 300 85 =
        .ok (true, fs') ∧
      lookupF fs'.files (resolvedOut ["in", "a.png"] none) =
        some (.webpFile (finalImg sampleResample img22 300) 85 6 false) ∧
      (finalImg sampleResample img22 300).width ≤ 300 ∧
      (22 ≤ 300 →
        finalImg sampleResample img22 300 = flatten img22 ∧
        (finalImg sampleResample img22 300).width = 22 ∧
        (finalImg sampleResample img22 300).height = 22) :=
  C3_no_upscale sampleResample fsC1 ["in", "a.png"] none 300 85 img22 rfl trivial
    (by decide)

/-- C4, counterexample: with a regular file blocking the supplied
output directory, the pre-`try` `mkdir` raises on the very first
candidate, the exception escapes `optimize_image`, and the batch over
two candidates aborts instead of attempting both. -/
theorem C4_abort_counterexample :
    (imagesOf fsC4 ["pics"]).length = 2 ∧
    errOf (optimize_directory sampleResample fsC4 ["pics"] (some ["out"]) 100 85) =
      some .fileExists :=
  ⟨by decide, by decide⟩

/-- C4 (amended): failures inside the per-file `try:` block (missing
input, decode errors, output write errors) are caught per file and the
batch attempts every candidate; but this holds only when creating the
supplied output directory cannot fail — a `mkdir` failure is raised
outside the `try:` and aborts the batch. -/
theorem C4_per_file_isolation (resample : Resample) (fs : FS) (dir : FPath)
    (outDir : Option FPath) (mw q : Nat)
    (hmk : MkdirOk fs outDir) (hex : fs.existsP dir = true) :
    ∃ suc fs', optimize_directory resample fs dir outDir mw q =
      .ok ((imagesOf fs dir).length, suc, fs') ∧
      suc ≤ (imagesOf fs dir).length :=
  optimize_directory_ok resample fs dir outDir mw q hmk hex

/-- C4 witness: a batch with one decodable and one undecodable
candidate completes with both attempted. -/
theorem C4_per_file_isolation_witness :
    ∃ suc fs', optimize_directory sampleResample fsBatch ["pics"] none 300 85 =
      .ok ((imagesOf fsBatch ["pics"]).length, suc, fs') ∧
      suc ≤ (imagesOf fsBatch ["pics"]).length :=
  C4_per_file_isolation sampleResample fsBatch ["pics"] none 300 85 trivial
    (by decide)

/-- C5, counterexample: the `pics/` directory holds two supported
candidate files, yet the run aborts with an uncaught exception whose
log shows that no candidate's processing ever began — so it does not
lead to two transform invocations. -/
theorem C5_abort_counterexample :
    (imagesOf fsC4 ["pics"]).length = 2 ∧
    errLog (optimize_directory sampleResample fsC4 ["pics"] (some ["out"]) 100 85) =
      some ["Found images to optimize"] :=
  ⟨by decide, by decide⟩

/-- C5 (amended): the candidate list contains exactly the top-level
regular files
of the directory whose extension, lowercased, is a supported one, and
(when no exception can escape) the batch makes exactly one transform
invocation per candidate. -/
theorem C5_supported_candidates (resample : Resample) (fs : FS) (dir : FPath)
    (outDir : Option FPath) (mw q : Nat)
    (hmk : MkdirOk fs outDir) (hex : fs.existsP dir = true) :
    (∃ suc fs', optimize_directory resample fs dir outDir mw q =
        .ok ((imagesOf fs dir).length, suc, fs')) ∧
    ∀ p, p ∈ imagesOf fs dir ↔
      ((lookupF fs.files p).isSome = true ∧ p ≠ [] ∧ p.dropLast = dir ∧
        strLower (pySuffix (pname p)) ∈ supported_formats) := by
  constructor
  · obtain ⟨suc, fs', h, _⟩ :=
      optimize_directory_ok resample fs dir outDir mw q hmk hex
    exact ⟨suc, fs', h⟩
  · intro p
    unfold imagesOf iterdir
    rw [List.mem_filter, List.mem_filter]
    constructor
    · rintro ⟨⟨_, hcond⟩, hfs⟩
      rw [Bool.and_eq_true] at hfs
      have hcond' := of_decide_eq_true hcond
      refine ⟨hfs.1, hcond'.1, hcond'.2, ?_⟩
      have hs := hfs.2
      unfold supportedSuffix at hs
      simpa using hs
    · rintro ⟨h1, hne, hdrop, hsup⟩
      refine ⟨⟨List.mem_append_left _ ((lookupF_isSome_iff_mem fs.files p).mp h1),
        decide_eq_true ⟨hne, hdrop⟩⟩, ?_⟩
      rw [Bool.and_eq_true]
      refine ⟨h1, ?_⟩
      unfold supportedSuffix
      simpa using hsup

/-- C5 witness: a directory with two supported images, one text file
and one subdirectory yields exactly two candidates and two
invocations. -/
theorem C5_supported_candidates_witness :
    (∃ suc fs', optimize_directory sampleResample fsC5 ["pics"] none 300 85 =
        .ok ((imagesOf fsC5 ["pics"]).length, suc, fs')) ∧
    ∀ p, p ∈ imagesOf fsC5 ["pics"] ↔
      ((lookupF fsC5.files p).isSome = true ∧ p ≠ [] ∧ p.dropLast = ["pics"] ∧
        strLower (pySuffix (pname p)) ∈ supported_formats) :=
  C5_supported_candidates sampleResample fsC5 ["pics"] none 300 85 trivial
    (by decide)

/-- C6: on success the transform writes the encoded image at the
supplied output directory (else the input's parent) joined with the
input's stem plus `.webp`, and a supplied output directory has its full
prefix chain created. -/
theorem C6_output_location (resample : Resample) (fs : FS) (input : FPath)
    (outDir : Option FPath) (mw q : Nat) (im : Img)
    (hdec : decodeContent (lookupF fs.files input) = some im)
    (hmk : MkdirOk fs outDir) (hsv : SaveOk fs input outDir) :
    ∃ fs', optimize_image resample fs input outDir mw q = .ok (true, fs') ∧
      resolvedOut input outDir =
        (outDir.getD input.dropLast) ++ [pyStem (pname input) ++ ".webp"] ∧
      lookupF fs'.files
          ((outDir.getD input.dropLast) ++ [pyStem (pname input) ++ ".webp"]) =
        some (.webpFile (finalImg resample im mw) q 6 false) ∧
      ∀ d, outDir = some d → ∀ p ∈ prefixesNE d, p ∈ fs'.dirs := by
  obtain ⟨fs', h1, h2, h3⟩ :=
    optimize_image_success resample fs input outDir mw q im hdec hmk hsv
  have hres : resolvedOut input outDir =
      (outDir.getD input.dropLast) ++ [pyStem (pname input) ++ ".webp"] := by
    cases outDir <;> rfl
  refine ⟨fs', h1, hres, ?_, ?_⟩
  · rw [← hres, h2, lookupF_cons_self]
  · rintro d rfl p hp
    rw [h3]
    exact List.mem_append_left _ hp

/-- C6 witness: with output directory `outd/`, the fixture's output
lands at `outd/a.webp` and `outd` is created. -/
theorem C6_output_location_witness :
    ∃ fs', optimize_image sampleResample fsC1 ["in", "a.png"] (some ["outd"]) 15 85 =
        .ok (true, fs') ∧
      resolvedOut ["in", "a.png"] (some ["outd"]) =
        ((some ["outd"]).getD (["in", "a.png"] : FPath).dropLast) ++
          [pyStem (pname ["in", "a.png"]) ++ ".webp"] ∧
      lookupF fs'.files
          (((some ["outd"]).getD (["in", "a.png"] : FPath).dropLast) ++
            [pyStem (pname ["in", "a.png"]) ++ ".webp"]) =
        some (.webpFile (finalImg sampleResample img22 15) 85 6 false) ∧
      ∀ d, (some ["outd"] : Option FPath) = some d →
        ∀ p ∈ prefixesNE d, p ∈ fs'.dirs :=
  C6_output_location sampleResample fsC1 ["in", "a.png"] (some ["outd"]) 15 85 img22
    rfl (by decide) (by decide)

/-- C7: on a nonexistent input path the transform reports the failure
and returns `False` with the filesystem untouched (no file written, no
directory created), and the CLI dispatch on such a path exits with
status 1. -/
theorem C7_input_not_found (resample : Resample) (fs : FS) (input : FPath)
    (outDir : Option FPath) (mw q : Nat)
    (h1 : lookupF fs.files input = none) (h2 : input ∉ fs.dirs) :
    optimize_image resample fs input outDir mw q =
      .ok (false, fs.logMsg ("Error: File not found: " ++ pathStr input)) ∧
    mainDispatch resample fs input outDir mw q =
      (1, fs.logMsg ("Error: Not a file or directory: " ++ pathStr input)) := by
  have hex : fs.existsP input = false := by
    simp [FS.existsP, FS.isFile, FS.isDir, h1, h2]
  constructor
  · simp [optimize_image, hex]
  · have hf : fs.isFile input = false := by simp [FS.isFile, h1]
    have hd : fs.isDir input = false := by simp [FS.isDir, h2]
    simp [mainDispatch, hf, hd]

/-- C7 witness: a missing `pics/missing.png`. -/
theorem C7_input_not_found_witness :
    optimize_image sampleResample fsC8 ["pics", "missing.png"] none 300 85 =
      .ok (false, fsC8.logMsg
        ("Error: File not found: " ++ pathStr ["pics", "missing.png"])) ∧
    mainDispatch sampleResample fsC8 ["pics", "missing.png"] none 300 85 =
      (1, fsC8.logMsg
        ("Error: Not a file or directory: " ++ pathStr ["pics", "missing.png"])) :=
  C7_input_not_found sampleResample fsC8 ["pics", "missing.png"] none 300 85 rfl
    (by decide)

/-- C8: a directory with no supported-extension file makes the driver
report that no images were found and return normally, with zero
transform invocations and the filesystem untouched. -/
theorem C8_no_images_found (resample : Resample) (fs : FS) (dir : FPath)
    (outDir : Option FPath) (mw q : Nat)
    (hex : fs.existsP dir = true) (hempty : imagesOf fs dir = []) :
    optimize_directory resample fs dir outDir mw q =
      .ok (0, 0, fs.logMsg ("No images found in " ++ pathStr dir)) := by
  simp [optimize_directory, hex, hempty]

/-- C8 witness: `pics/` holding only a text file. -/
theorem C8_no_images_found_witness :
    optimize_directory sampleResample fsC8 ["pics"] none 300 85 =
      .ok (0, 0, fsC8.logMsg ("No images found in " ++ pathStr ["pics"])) :=
  C8_no_images_found sampleResample fsC8 ["pics"] none 300 85 (by decide)
    (by decide)

/-- C9: with a supplied absent output directory, the directory tree is
created before the decode is attempted, so an existing input that fails
to decode still leaves the output directory created while no file is
written. -/
theorem C9_mkdir_precedes_decode (resample : Resample) (fs : FS) (input : FPath)
    (d : FPath) (mw q : Nat) (c : Content)
    (hmk : MkdirOk fs (some d))
    (hfile : lookupF fs.files input = some c)
    (hbad : decodeContent (some c) = none) :
    ∃ fs', optimize_image resample fs input (some d) mw q = .ok (false, fs') ∧
      fs'.dirs = prefixesNE d ++ fs.dirs ∧ fs'.files = fs.files := by
  have hex : fs.existsP input = true := by
    simp [FS.existsP, FS.isFile, hfile]
  obtain ⟨hdne, hpref⟩ := hmk
  have hmk' := mkdirParents_ok fs d
    (fun p hp => Option.isNone_iff_eq_none.mp (hpref p hp))
  set fs1 : FS := { fs with dirs := prefixesNE d ++ fs.dirs } with hfs1
  have hd1 : decodeContent (lookupF fs1.files input) = none := by
    show decodeContent (lookupF fs.files input) = none
    rw [hfile]
    exact hbad
  have htb : tryBody resample fs1 input (resolvedOut input (some d)) mw q =
      (false, (fs1.logMsg ("Processing: " ++ pname input)).logMsg
        ("   Error processing " ++ pname input)) := by
    unfold tryBody
    rw [hd1]
  refine ⟨(fs1.logMsg ("Processing: " ++ pname input)).logMsg
    ("   Error processing " ++ pname input), ?_, rfl, rfl⟩
  simp [optimize_image, hex, hmk', htb]

/-- C9 witness: the undecodable `in/bad.png` with output directory
`outd/`. -/
theorem C9_mkdir_precedes_decode_witness :
    ∃ fs', optimize_image sampleResample fsC9 ["in", "bad.png"] (some ["outd"])
        300 85 = .ok (false, fs') ∧
      fs'.dirs = prefixesNE ["outd"] ++ fsC9.dirs ∧ fs'.files = fsC9.files :=
  C9_mkdir_precedes_decode sampleResample fsC9 ["in", "bad.png"] ["outd"] 300 85
    (.text "not an image") (by decide) rfl rfl

/-- C10: whatever the outcome, an `optimize_image` call changes no file
other than the one at the resolved output path; in particular an input
whose path differs from the output path keeps its contents. -/
theorem C10_only_output_written (resample : Resample) (fs : FS) (input : FPath)
    (outDir : Option FPath) (mw q : Nat) (r : FPath)
    (hr : r ≠ resolvedOut input outDir) :
    lookupF (resultFS (optimize_image resample fs input outDir mw q)).files r =
      lookupF fs.files r := by
  by_cases hex : fs.existsP input = true
  · cases outDir with
    | none =>
      obtain ⟨b, fs', hb, hfl, _, _⟩ :=
        tryBody_shape resample fs input (resolvedOut input none) mw q
      have ho : optimize_image resample fs input none mw q = .ok (b, fs') := by
        simp [optimize_image, hex, hb]
      rw [ho]
      rcases hfl with h | ⟨c, h⟩
      · simp only [resultFS]
        rw [h]
      · simp only [resultFS]
        rw [h, lookupF_cons_ne _ _ _ _ hr]
    | some d =>
      rcases mkdirParents_shape fs d with hmk | hmk
      · have ho : optimize_image resample fs input (some d) mw q =
            .error (.fileExists, fs) := by
          simp [optimize_image, hex, hmk]
        rw [ho]
        rfl
      · set fs1 : FS := { fs with dirs := prefixesNE d ++ fs.dirs } with hfs1
        obtain ⟨b, fs', hb, hfl, _, _⟩ :=
          tryBody_shape resample fs1 input (resolvedOut input (some d)) mw q
        have ho : optimize_image resample fs input (some d) mw q = .ok (b, fs') := by
          simp [optimize_image, hex, hmk, hb]
        rw [ho]
        rcases hfl with h | ⟨c, h⟩
        · simp only [resultFS]
          rw [h]
        · simp only [resultFS]
          rw [h, lookupF_cons_ne _ _ _ _ hr]
  · have hex' : fs.existsP input = false := by
      revert hex
      cases fs.existsP input <;> simp
    have ho : optimize_image resample fs input outDir mw q =
        .ok (false, fs.logMsg ("Error: File not found: " ++ pathStr input)) := by
      simp [optimize_image, hex']
    rw [ho]
    rfl

/-- C10 witness: the input `in/a.png` differs from the output
`in/a.webp` and is untouched by the run. -/
theorem C10_only_output_written_witness :
    lookupF (resultFS (optimize_image sampleResample fsC1 ["in", "a.png"] none
      15 85)).files ["in", "a.png"] = lookupF fsC1.files ["in", "a.png"] :=
  C10_only_output_written sampleResample fsC1 ["in", "a.png"] none 15 85
    ["in", "a.png"] (by decide)

end ImgOpt
